import Mathlib

/-!
Verification development for the mini battle royale game in src/ff.py.

The game state that the Python program stores in floating point numbers is
modelled with exact numbers: coordinates, velocities and the outputs of the
square-root based vector helpers are real numbers, while health values,
wall-clock times and the tunable constants are rationals, and counters are
naturals.  Object identity of Python entities (used by the is-checks of the
collision loop) is modelled by an explicit eid field.
-/

namespace FF

/-- Game setting constant from the top of ff.py. -/
def WIDTH : ℚ := 900

/-- Game setting constant from the top of ff.py. -/
def HEIGHT : ℚ := 600

/-- Game setting constant from the top of ff.py. -/
def PLAYER_RADIUS : ℚ := 10

/-- Game setting constant from the top of ff.py. -/
def BOT_RADIUS : ℚ := 10

/-- Game setting constant from the top of ff.py. -/
def BULLET_RADIUS : ℚ := 3

/-- Game setting constant from the top of ff.py. -/
def MAX_BOTS : ℕ := 10

/-- Game setting constant from the top of ff.py. -/
def BULLET_SPEED : ℚ := 12

/-- Game setting constant from the top of ff.py. -/
def PLAYER_SPEED : ℚ := 5

/-- Game setting constant from the top of ff.py. -/
def BOT_SPEED : ℚ := 3

/-- Player fire cooldown in seconds. -/
def FIRE_COOLDOWN : ℚ := 0.35

/-- Per-frame bot fire probability. -/
def BOT_FIRE_CHANCE : ℚ := 0.008

/-- Seconds before the zone starts to shrink. -/
def ZONE_SHRINK_START : ℚ := 8

/-- Seconds over which the zone shrinks. -/
def ZONE_SHRINK_DURATION : ℚ := 60

/-- Initial zone radius: min(WIDTH, HEIGHT) * 0.45. -/
def INITIAL_ZONE_RADIUS : ℚ := min WIDTH HEIGHT * 0.45

/-- Final zone radius. -/
def FINAL_ZONE_RADIUS : ℚ := 60

/-- Health lost per second outside the zone. -/
def OUTSIDE_DAMAGE : ℚ := 0.6

/-- Starting health of every entity. -/
def MAX_HEALTH : ℚ := 100

/-- Utility clamp from ff.py: max(a, min(b, v)). -/
def clamp {α : Type} [LinearOrder α] (v a b : α) : α := max a (min b v)

/-- Utility distance from ff.py, math.hypot of the coordinate differences. -/
noncomputable def distance (a b : ℝ × ℝ) : ℝ :=
  Real.sqrt ((a.1 - b.1) ^ 2 + (a.2 - b.2) ^ 2)

/-- Utility normalize from ff.py: the zero vector maps to the zero vector,
any other vector is divided by its magnitude. -/
noncomputable def normalize (vx vy : ℝ) : ℝ × ℝ :=
  let mag := Real.sqrt (vx ^ 2 + vy ^ 2)
  if mag = 0 then (0, 0) else (vx / mag, vy / mag)

/-- Shared entity state of the player and the bots: position, radius, color
tag, movement speed, health and the alive flag.  The eid field models Python
object identity. -/
structure Entity where
  eid : ℕ
  x : ℝ
  y : ℝ
  radius : ℚ
  color : String
  speed : ℚ
  hp : ℚ
  alive : Bool

/-- Entity constructor from ff.py: health starts at MAX_HEALTH and the
alive flag starts true. -/
def Entity.init (eid : ℕ) (x y : ℝ) (radius : ℚ) (color : String) (speed : ℚ) : Entity :=
  ⟨eid, x, y, radius, color, speed, MAX_HEALTH, true⟩

/-- Entity.hit from ff.py: subtract the damage from health and clear the
alive flag when the resulting health is at most zero. -/
def Entity.hit (e : Entity) (damage : ℚ) : Entity :=
  let hp := e.hp - damage
  { e with hp := hp, alive := if hp ≤ 0 then false else e.alive }

/-- Folding a list of hit amounts over an entity: the health evolution of one
entity across the damage events of a session (bullet hits and out-of-zone
damage all go through Entity.hit). -/
def Entity.hits (e : Entity) (ds : List ℚ) : Entity :=
  ds.foldl Entity.hit e

/-- Relation between the alive flag and health that holds for every freshly
constructed entity and is preserved by non-negative damage events. -/
abbrev Entity.aliveInv (e : Entity) : Prop :=
  e.alive = true ↔ 0 < e.hp

/-- Bullet state from ff.py: owning entity, position, velocity, alive flag. -/
structure Bullet where
  owner : Entity
  x : ℝ
  y : ℝ
  vx : ℝ
  vy : ℝ
  alive : Bool

/-- Bullet.update from ff.py: advance the position by the velocity (a fixed
per-tick displacement) and mark the bullet dead when it leaves the playfield
bounds by more than the 50 unit margin on any side. -/
noncomputable def Bullet.update (b : Bullet) : Bullet :=
  let x := b.x + b.vx
  let y := b.y + b.vy
  { b with
    x := x
    y := y
    alive :=
      if x < -50 ∨ x > ((WIDTH : ℚ) : ℝ) + 50 ∨ y < -50 ∨ y > ((HEIGHT : ℚ) : ℝ) + 50 then
        false
      else b.alive }

/-- Player state from ff.py: the shared entity state plus the timestamp of
the last successful fire (initially 0). -/
structure Player extends Entity where
  last_fire : ℚ

/-- Player constructor from ff.py. -/
def Player.init (x y : ℝ) : Player :=
  ⟨Entity.init 0 x y PLAYER_RADIUS ("dodgerblue") PLAYER_SPEED, 0⟩

/-- Player.can_fire from ff.py: the cooldown has elapsed since the recorded
last fire time.  The wall clock reading time.time() is passed in as now. -/
def Player.can_fire (p : Player) (now : ℚ) : Bool :=
  decide (FIRE_COOLDOWN ≤ now - p.last_fire)

/-- Player.fire from ff.py.  Mutation is made explicit: the call returns the
optional bullet together with the player state after the call.  On rejection
nothing changes; on success the last fire time is set to now and a bullet is
spawned at the player position offset along the normalized direction to the
target by radius + BULLET_RADIUS + 1, with velocity direction * BULLET_SPEED. -/
noncomputable def Player.fire (p : Player) (now : ℚ) (target_x target_y : ℝ) :
    Option Bullet × Player :=
  if ¬ p.can_fire now = true ∨ ¬ p.alive = true then (none, p)
  else
    let n := normalize (target_x - p.x) (target_y - p.y)
    (some ⟨p.toEntity,
      p.x + n.1 * ((p.radius + BULLET_RADIUS + 1 : ℚ) : ℝ),
      p.y + n.2 * ((p.radius + BULLET_RADIUS + 1 : ℚ) : ℝ),
      n.1 * ((BULLET_SPEED : ℚ) : ℝ),
      n.2 * ((BULLET_SPEED : ℚ) : ℝ), true⟩,
      { p with last_fire := now })

/-- Target of a bot in ff.py: either another entity (followed live) or a
fixed wander point. -/
inductive Target where
  | entity (e : Entity)
  | point (x y : ℝ)

/-- Position of a target, as resolved at the start of Bot.step. -/
def Target.pos : Target → ℝ × ℝ
  | Target.entity e => (e.x, e.y)
  | Target.point x y => (x, y)

/-- Bot state from ff.py: the shared entity state plus the optional target,
the timestamp of the last retarget and the timestamp of the last shot. -/
structure Bot extends Entity where
  target : Option Target
  last_target_time : ℚ
  last_fire : ℚ

/-- Bot.update_ai from ff.py.  The wall clock reading is passed in as now,
the random.random() draw as r, and the random.uniform wander coordinates as
wx and wy.  A retarget happens when more than 1.2 seconds have elapsed since
the last retarget or when no target is set; it picks the player when the
draw is below 0.7 and the player is alive, and a random wander point
otherwise. -/
def Bot.update_ai (bot : Bot) (player : Entity) (now r : ℚ) (wx wy : ℝ) : Bot :=
  if 1.2 < now - bot.last_target_time ∨ bot.target.isNone then
    { bot with
      last_target_time := now
      target :=
        if r < 0.7 ∧ player.alive then some (Target.entity player)
        else some (Target.point wx wy) }
  else bot

/-- Bot.step from ff.py: run update_ai, resolve the target position, and move
toward it with jitter, clamped to the playfield.  The jitter draws are passed
in as j1 and j2.  Resolving an absent target would raise in Python; that case
is modelled as none. -/
noncomputable def Bot.step (bot : Bot) (player : Entity) (now r : ℚ) (wx wy j1 j2 : ℝ) :
    Option Bot :=
  let b := bot.update_ai player now r wx wy
  match b.target with
  | none => none
  | some t =>
    let tp := t.pos
    let n := normalize (tp.1 - b.x) (tp.2 - b.y)
    some { b with
      x := clamp (b.x + n.1 * ((b.speed : ℚ) : ℝ) + j1) 0 ((WIDTH : ℚ) : ℝ)
      y := clamp (b.y + n.2 * ((b.speed : ℚ) : ℝ) + j2) 0 ((HEIGHT : ℚ) : ℝ) }

/-- Condition under which a bullet hits the player in the collision loop of
BattleRoyale.update: the bullet was not fired by the player, the player is
alive, and the distance from bullet to player is at most the sum of the
owner radius, the player radius and the bullet radius. -/
abbrev player_hit_cond (player : Entity) (bul : Bullet) : Prop :=
  bul.owner.eid ≠ player.eid ∧ player.alive = true ∧
    distance (bul.x, bul.y) (player.x, player.y) ≤
      ((bul.owner.radius + player.radius + BULLET_RADIUS : ℚ) : ℝ)

/-- Condition under which a bullet hits a given bot in the collision loop of
BattleRoyale.update: the bot is alive, is not the owner of the bullet, and
the distance from bullet to bot is at most BULLET_RADIUS plus the bot
radius. -/
abbrev bot_hit_cond (bul : Bullet) (bot : Entity) : Prop :=
  bot.alive = true ∧ bul.owner.eid ≠ bot.eid ∧
    distance (bul.x, bul.y) (bot.x, bot.y) ≤ ((BULLET_RADIUS + bot.radius : ℚ) : ℝ)

/-- Inner bot loop of the collision resolution in BattleRoyale.update, for
one bullet: dead bots and the owner are skipped, the first remaining bot in
iteration order within range takes 22 damage and the scan stops with the
bullet marked dead; when no bot matches, the bot list and the bullet alive
flag are unchanged.  Returns the updated bot list and the bullet alive
flag. -/
noncomputable def scan_bots (bul : Bullet) : List Entity → List Entity × Bool
  | [] => ([], bul.alive)
  | bot :: rest =>
    if bot.alive = false ∨ bul.owner.eid = bot.eid then
      let r := scan_bots bul rest
      (bot :: r.1, r.2)
    else if distance (bul.x, bul.y) (bot.x, bot.y) ≤ ((BULLET_RADIUS + bot.radius : ℚ) : ℝ) then
      (bot.hit 22 :: rest, false)
    else
      let r := scan_bots bul rest
      (bot :: r.1, r.2)

/-- Per-bullet collision resolution from BattleRoyale.update (after the
bullet has been advanced): first the player check, which on a hit applies 18
damage, kills the bullet and skips the bot loop; otherwise the bot loop. -/
noncomputable def resolve_bullet (player : Entity) (bots : List Entity) (bul : Bullet) :
    Entity × List Entity × Bullet :=
  if player_hit_cond player bul then
    (player.hit 18, bots, { bul with alive := false })
  else
    let r := scan_bots bul bots
    (player, r.1, { bul with alive := r.2 })

/-- Zone radius as a function of elapsed session time, from the zone update
in BattleRoyale.update. -/
def zone_radius_at (game_elapsed : ℚ) : ℚ :=
  if game_elapsed < ZONE_SHRINK_START then INITIAL_ZONE_RADIUS
  else
    INITIAL_ZONE_RADIUS +
      (FINAL_ZONE_RADIUS - INITIAL_ZONE_RADIUS) *
        clamp ((game_elapsed - ZONE_SHRINK_START) / ZONE_SHRINK_DURATION) 0 1

/-- Bot replenishment check at the end of BattleRoyale.update: when the
number of living bots is below max(2, MAX_BOTS // 3) and the total number of
bots ever spawned (the list is never shrunk) is below MAX_BOTS * 2, a draw
below 0.02 appends one new bot.  The random draw is passed in as r and the
freshly spawned bot as nb. -/
def spawn_check (bots : List Entity) (r : ℚ) (nb : Entity) : List Entity :=
  let live_bots := List.countP (fun b => b.alive) bots
  if live_bots < max 2 (MAX_BOTS / 3) ∧ bots.length < MAX_BOTS * 2 then
    if r < 0.02 then bots ++ [nb] else bots
  else bots

/-- Scheduling skeleton of BattleRoyale.update_loop and restart.  The one
fact about the external Tk scheduler that the embedding needs is that
master.after registers exactly one pending callback; pending records whether
a callback is currently registered.  The fields sims and renders count the
simulation steps and render passes that have run. -/
structure LoopState where
  running : Bool
  paused : Bool
  pending : Bool
  sims : ℕ
  renders : ℕ

/-- One firing of the scheduled callback, from BattleRoyale.update_loop: when
running is false the method returns at once, so nothing is rendered and no
new callback is registered; otherwise it runs one simulation step (skipped
while paused), renders, and reschedules itself. -/
def update_loop_fire (s : LoopState) : LoopState :=
  if s.running = false then { s with pending := false }
  else
    { s with
      sims := s.sims + (if s.paused then 0 else 1)
      renders := s.renders + 1
      pending := true }

/-- One instant of scheduler time: the pending callback, when there is one,
fires; with no pending callback nothing happens. -/
def sched_tick (s : LoopState) : LoopState :=
  if s.pending then update_loop_fire s else s

/-- BattleRoyale.restart from ff.py, restricted to the fields of the
scheduling skeleton: it sets running back to true and clears the pause flag,
and it does not touch the scheduler (it neither cancels nor registers a
callback). -/
def LoopState.restart (s : LoopState) : LoopState :=
  { s with running := true, paused := false }

/-- Concrete dead player used in the C5 counterexample. -/
def c5dead : Entity := ⟨0, 450, 300, 10, "dodgerblue", 5, 0, false⟩

/-- Concrete bot tracking the dead player, used in the C5 counterexample:
its last retarget was 1 second ago, within the 1.2 second interval. -/
def c5bot : Bot := ⟨⟨1, 100, 100, 10, "orange", 3, 100, true⟩, some (Target.entity c5dead), 0, 0⟩

/-- Concrete bot with no target, used in the C5 witness. -/
def c5fresh : Bot := ⟨⟨2, 120, 100, 10, "orange", 3, 100, true⟩, none, 0, 0⟩

/-- Concrete player entity for the C6 witness. -/
def c6player : Entity := ⟨0, 0, 0, 10, "dodgerblue", 5, 100, true⟩

/-- Concrete bot entity owning the bullet of the C6 player-hit witness. -/
def c6owner : Entity := ⟨1, 50, 50, 10, "orange", 3, 100, true⟩

/-- Bullet fired by a bot, 5 units from the player, for the C6 witness. -/
def c6bulA : Bullet := ⟨c6owner, 5, 0, 0, 0, true⟩

/-- Bullet fired by the player, for the bot-scan part of the C6 witness. -/
def c6bulB : Bullet := ⟨c6player, 5, 0, 0, 0, true⟩

/-- Dead bot within range of the bullet: skipped by the scan. -/
def c6deadbot : Entity := ⟨2, 5, 0, 10, "orange", 3, 0, false⟩

/-- Live bot far away from the bullet: scanned but missed. -/
def c6farbot : Entity := ⟨3, 500, 0, 10, "orange", 3, 100, true⟩

/-- First live bot in range: the one the scan hits. -/
def c6hitbot : Entity := ⟨4, 10, 0, 10, "orange", 3, 100, true⟩

/-- Another live bot in range, after the hit bot: left untouched. -/
def c6latebot : Entity := ⟨5, 6, 0, 10, "orange", 3, 100, true⟩

/-- Bot list for the C6 witness. -/
def c6bots : List Entity := [c6deadbot, c6farbot, c6hitbot, c6latebot]

/-- Bullet of the C7 scenario: fired by the player at (100, 100) with
velocity (12, 0). -/
def c7bullet : Bullet := ⟨c6player, 100, 100, 12, 0, true⟩

/-- Dead bot used to pad the C8 counterexample population. -/
def c8dead : Entity := ⟨2, 100, 100, 10, "orange", 3, -10, false⟩

/-- Live bot used in the C8 counterexample population. -/
def c8live : Entity := ⟨3, 200, 200, 10, "orange", 3, 50, true⟩

/-- Population of 12 bots of which exactly 2 are alive, for C8. -/
def c8bots : List Entity := [c8live, c8live] ++ List.replicate 10 c8dead

/-- Freshly spawned bot for the C8 counterexample. -/
def c8new : Entity := Entity.init 13 0 0 BOT_RADIUS ("orange") BOT_SPEED

/-- Loop state just after the match has ended: running is false and the
callback registered by the final update_loop pass is still pending. -/
def c9ended : LoopState := ⟨false, false, true, 0, 0⟩

/-- Concrete already-dead entity used for C3. -/
def c3deadent : Entity := ⟨6, 0, 0, 10, "orange", 3, -5, false⟩

/-- Concrete live player with last fire time 0, used for C2. -/
def c2player : Player := ⟨⟨0, 100, 100, 10, "dodgerblue", 5, 100, true⟩, 0⟩

/-- Basic fact about Entity.hit: the health always drops by the damage. -/
theorem Entity.hit_hp (e : Entity) (d : ℚ) : (e.hit d).hp = e.hp - d := rfl

/-- Basic fact about Entity.hit: the resulting alive flag. -/
theorem Entity.hit_alive (e : Entity) (d : ℚ) :
    (e.hit d).alive = if e.hp - d ≤ 0 then false else e.alive := rfl

/-- Entity.hit never revives a dead entity. -/
theorem Entity.hit_dead (e : Entity) (d : ℚ) (h : e.alive = false) :
    (e.hit d).alive = false := by
  rw [Entity.hit_alive]
  split <;> simp [h]

/-- Non-negative damage preserves the relation between alive and health. -/
theorem Entity.aliveInv_hit (e : Entity) (d : ℚ) (hd : 0 ≤ d) (h : e.aliveInv) :
    (e.hit d).aliveInv := by
  show (e.hit d).alive = true ↔ 0 < (e.hit d).hp
  rw [Entity.hit_alive, Entity.hit_hp]
  split
  case isTrue hle => constructor <;> intro hc <;> [exact absurd hc (by simp); linarith]
  case isFalse hgt =>
    push_neg at hgt
    constructor
    · intro _
      exact hgt
    · intro _
      exact h.mpr (by linarith)

/-- Folding hits over an append splits into two folds. -/
theorem Entity.hits_append (e : Entity) (l1 l2 : List ℚ) :
    e.hits (l1 ++ l2) = (e.hits l1).hits l2 := by
  simp [Entity.hits, List.foldl_append]

/-- Health never rises along a sequence of non-negative damage events. -/
theorem Entity.hits_hp_le (e : Entity) (ds : List ℚ) (h : ∀ d ∈ ds, 0 ≤ d) :
    (e.hits ds).hp ≤ e.hp := by
  induction ds generalizing e with
  | nil => simp [Entity.hits]
  | cons d ds ih =>
    have h1 : 0 ≤ d := h d (by simp)
    have step : (Entity.hits (e.hit d) ds).hp ≤ (e.hit d).hp :=
      ih _ (fun x hx => h x (by simp [hx]))
    calc ((e.hits (d :: ds)).hp : ℚ) = (Entity.hits (e.hit d) ds).hp := rfl
    _ ≤ (e.hit d).hp := step
    _ ≤ e.hp := by rw [Entity.hit_hp]; linarith

/-- The alive-health relation is preserved along non-negative damage events. -/
theorem Entity.hits_aliveInv (e : Entity) (ds : List ℚ) (h : ∀ d ∈ ds, 0 ≤ d)
    (hinv : e.aliveInv) : (e.hits ds).aliveInv := by
  induction ds generalizing e with
  | nil => exact hinv
  | cons d ds ih =>
    exact ih _ (fun x hx => h x (by simp [hx]))
      (Entity.aliveInv_hit e d (h d (by simp)) hinv)

/-- Once dead, an entity stays dead along any further damage events. -/
theorem Entity.hits_dead (e : Entity) (ds : List ℚ) (h : e.alive = false) :
    (e.hits ds).alive = false := by
  induction ds generalizing e with
  | nil => exact h
  | cons d ds ih => exact ih _ (Entity.hit_dead e d h)

/-- C1: along every sequence of damage events of a session with non-negative
amounts, starting from an entity whose alive flag agrees with its health,
health is non-increasing over time (over any prefix), the alive flag is
false exactly when health was at most zero at some prior evaluation point,
and once the alive flag is false it never becomes true again. -/
theorem c1_health_monotone_alive_sticky (e : Entity) (ds l1 l2 : List ℚ)
    (hinv : e.aliveInv) (hnn : ∀ d ∈ ds, 0 ≤ d) (hsplit : ds = l1 ++ l2) :
    (e.hits ds).hp ≤ (e.hits l1).hp ∧
    ((e.hits ds).alive = false ↔ ∃ p s, ds = p ++ s ∧ (e.hits p).hp ≤ 0) ∧
    ((e.hits l1).alive = false → (e.hits ds).alive = false) := by
  subst hsplit
  have h2 : ∀ d ∈ l2, 0 ≤ d := fun d hd => hnn d (List.mem_append_right _ hd)
  refine ⟨?_, ⟨?_, ?_⟩, ?_⟩
  · rw [Entity.hits_append]
    exact Entity.hits_hp_le _ _ h2
  · intro hdead
    refine ⟨l1 ++ l2, [], by simp, ?_⟩
    have hinv2 := Entity.hits_aliveInv e _ hnn hinv
    by_contra hpos
    push_neg at hpos
    rw [hinv2.mpr hpos] at hdead
    simp at hdead
  · rintro ⟨p, s, hps, hple⟩
    have hp : ∀ d ∈ p, 0 ≤ d := fun d hd => hnn d (by rw [hps]; exact List.mem_append_left _ hd)
    have hinvp := Entity.hits_aliveInv e p hp hinv
    have hpdead : (e.hits p).alive = false := by
      rcases Bool.eq_false_or_eq_true (e.hits p).alive with hb | hb
      · exact absurd (hinvp.mp hb) (by linarith)
      · exact hb
    rw [hps, Entity.hits_append]
    exact Entity.hits_dead _ _ hpdead
  · intro hd
    rw [Entity.hits_append]
    exact Entity.hits_dead _ _ hd

/-- C1 witness: a fresh entity hit twice for 60 damage; health drops and the
second hit is applied to an already dead entity without reviving it. -/
theorem c1_witness :
    (Entity.init 7 450 300 10 ("x") 5).aliveInv ∧
    (∀ d ∈ [(60 : ℚ), 60], 0 ≤ d) ∧
    ((Entity.init 7 450 300 10 ("x") 5).hits [60, 60]).hp ≤
      ((Entity.init 7 450 300 10 ("x") 5).hits [60]).hp ∧
    ((Entity.init 7 450 300 10 ("x") 5).hits [60, 60]).alive = false :=
  ⟨by decide, by decide,
    (c1_health_monotone_alive_sticky (Entity.init 7 450 300 10 ("x") 5)
      [60, 60] [60] [60] (by decide) (by decide) rfl).1,
    by norm_num [Entity.hits, Entity.hit, Entity.init, MAX_HEALTH, List.foldl]⟩

/-- C3 counterexample: a hit on an already dead entity is not a no-op, the
health still changes (from -5 to -15). -/
theorem c3_counterexample :
    c3deadent.alive = false ∧ (c3deadent.hit 10).hp ≠ c3deadent.hp ∧
    (c3deadent.hit 10).hp = -15 ∧ c3deadent.hp = -5 := by
  norm_num [c3deadent, Entity.hit]

/-- C3 amended: hit subtracts the amount from health and the entity is
non-alive afterwards exactly when the new health is at most zero or it was
already non-alive; a hit on a dead entity still lowers health further (so it
is not a strict no-op) but it never revives the entity and tolerates
negative health. -/
theorem c3_hit_contract (e : Entity) (d : ℚ) :
    (e.hit d).hp = e.hp - d ∧
    ((e.hit d).alive = false ↔ e.hp - d ≤ 0 ∨ e.alive = false) ∧
    (e.alive = false → (e.hit d).alive = false) := by
  refine ⟨rfl, ?_, Entity.hit_dead e d⟩
  rw [Entity.hit_alive]
  split
  case isTrue h => simp [h]
  case isFalse h => simp [h]

/-- C3 witness: the amended contract applied to the concrete dead entity. -/
theorem c3_witness :
    c3deadent.alive = false ∧ (c3deadent.hit 10).alive = false :=
  ⟨by decide, (c3_hit_contract c3deadent 10).2.2 (by decide)⟩

/-- Clamping into the unit interval gives a non-negative value. -/
theorem clamp01_nonneg (v : ℚ) : 0 ≤ clamp v 0 1 := le_max_left 0 _

/-- Clamping into the unit interval gives a value at most one. -/
theorem clamp01_le_one (v : ℚ) : clamp v 0 1 ≤ 1 :=
  max_le (by norm_num) (min_le_left 1 v)

/-- Clamping into the unit interval is monotone. -/
theorem clamp01_mono {v w : ℚ} (h : v ≤ w) : clamp v 0 1 ≤ clamp w 0 1 :=
  max_le_max le_rfl (min_le_min le_rfl h)

/-- Numeric value of the initial zone radius. -/
theorem INITIAL_ZONE_RADIUS_eq : INITIAL_ZONE_RADIUS = 270 := by
  norm_num [INITIAL_ZONE_RADIUS, WIDTH, HEIGHT]

/-- Closed numeric form of the zone radius function. -/
theorem zone_radius_eval (t : ℚ) :
    zone_radius_at t = if t < 8 then 270 else 270 - 210 * clamp ((t - 8) / 60) 0 1 := by
  unfold zone_radius_at
  simp only [INITIAL_ZONE_RADIUS_eq, FINAL_ZONE_RADIUS, ZONE_SHRINK_START,
    ZONE_SHRINK_DURATION]
  split
  · rfl
  · ring

/-- The zone radius is non-increasing in elapsed time. -/
theorem zone_radius_antitone {t1 t2 : ℚ} (h : t1 ≤ t2) :
    zone_radius_at t2 ≤ zone_radius_at t1 := by
  rw [zone_radius_eval, zone_radius_eval]
  rcases lt_or_ge t1 8 with h1 | h1
  · rcases lt_or_ge t2 8 with h2 | h2
    · simp [h1, h2]
    · rw [if_pos h1, if_neg (not_lt.mpr h2)]
      have hc0 := clamp01_nonneg ((t2 - 8) / 60)
      linarith
  · have h2 : (8 : ℚ) ≤ t2 := by linarith
    rw [if_neg (not_lt.mpr h1), if_neg (not_lt.mpr h2)]
    have hm : clamp ((t1 - 8) / 60) 0 1 ≤ clamp ((t2 - 8) / 60) 0 1 :=
      clamp01_mono (by linarith)
    linarith

/-- The zone radius always lies between the final and the initial radius. -/
theorem zone_radius_bounds (t : ℚ) :
    60 ≤ zone_radius_at t ∧ zone_radius_at t ≤ 270 := by
  rw [zone_radius_eval]
  split
  · norm_num
  · have hc0 := clamp01_nonneg ((t - 8) / 60)
    have hc1 := clamp01_le_one ((t - 8) / 60)
    constructor <;> linarith

/-- C4: for every non-negative elapsed session time the zone radius equals
the initial radius before 8 seconds and the clamped linear interpolation
afterwards, it is monotonically non-increasing in elapsed time, and it is
bounded within the final and initial radii. -/
theorem c4_zone_radius (t t1 t2 : ℚ) (ht : 0 ≤ t) (h1 : 0 ≤ t1) (h12 : t1 ≤ t2) :
    (t < 8 → zone_radius_at t = INITIAL_ZONE_RADIUS) ∧
    (¬ t < 8 → zone_radius_at t =
      INITIAL_ZONE_RADIUS + (FINAL_ZONE_RADIUS - INITIAL_ZONE_RADIUS) *
        clamp ((t - 8) / 60) 0 1) ∧
    zone_radius_at t2 ≤ zone_radius_at t1 ∧
    FINAL_ZONE_RADIUS ≤ zone_radius_at t ∧ zone_radius_at t ≤ INITIAL_ZONE_RADIUS := by
  refine ⟨?_, ?_, zone_radius_antitone h12, ?_, ?_⟩
  · intro h
    simp [zone_radius_at, ZONE_SHRINK_START, h]
  · intro h
    simp [zone_radius_at, ZONE_SHRINK_START, ZONE_SHRINK_DURATION, h]
  · show FINAL_ZONE_RADIUS ≤ zone_radius_at t
    rw [show FINAL_ZONE_RADIUS = 60 from rfl]
    exact (zone_radius_bounds t).1
  · rw [INITIAL_ZONE_RADIUS_eq]
    exact (zone_radius_bounds t).2

/-- C4 witness: the theorem applied at elapsed times 10 and 20 seconds. -/
theorem c4_witness :
    (0 : ℚ) ≤ 10 ∧ (10 : ℚ) ≤ 20 ∧ ¬ (10 : ℚ) < 8 ∧
    zone_radius_at 10 = INITIAL_ZONE_RADIUS +
      (FINAL_ZONE_RADIUS - INITIAL_ZONE_RADIUS) * clamp (((10 : ℚ) - 8) / 60) 0 1 ∧
    zone_radius_at 20 ≤ zone_radius_at 10 :=
  ⟨by norm_num, by norm_num, by norm_num,
    (c4_zone_radius 10 10 20 (by norm_num) (by norm_num) (by norm_num)).2.1 (by norm_num),
    (c4_zone_radius 10 10 20 (by norm_num) (by norm_num) (by norm_num)).2.2.1⟩

/-- C5 counterexample: a bot whose tracked entity-target (the player) is
dead is not retargeted on the next tick while the 1.2 second interval has
not elapsed: update_ai leaves the bot completely unchanged, still tracking
the dead entity. -/
theorem c5_counterexample :
    c5dead.alive = false ∧
    c5bot.target = some (Target.entity c5dead) ∧
    ¬ (1.2 : ℚ) < 1 - c5bot.last_target_time ∧
    c5bot.update_ai c5dead 1 0.5 0 0 = c5bot := by
  refine ⟨rfl, rfl, by norm_num [c5bot], ?_⟩
  norm_num [Bot.update_ai, c5bot]

/-- C5 amended: the target is re-evaluated whenever more than 1.2 seconds
have elapsed since the last retarget or no target is set, picking the player
on a draw below 0.7 while the player is alive and a wander point otherwise;
within the interval and with a target set, update_ai changes nothing at all,
so the death of the tracked entity does not trigger an immediate retarget
before the periodic check. -/
theorem c5_retarget_interval (bot : Bot) (player : Entity) (now r : ℚ) (wx wy : ℝ) :
    (1.2 < now - bot.last_target_time ∨ bot.target.isNone = true →
      (bot.update_ai player now r wx wy).last_target_time = now ∧
      (bot.update_ai player now r wx wy).target =
        (if r < 0.7 ∧ player.alive = true then some (Target.entity player)
         else some (Target.point wx wy))) ∧
    (¬ 1.2 < now - bot.last_target_time → bot.target.isNone = false →
      bot.update_ai player now r wx wy = bot) := by
  constructor
  · intro h
    simp only [Bot.update_ai]
    rw [if_pos h]
    exact ⟨rfl, rfl⟩
  · intro h1 h2
    simp only [Bot.update_ai]
    rw [if_neg]
    rw [not_or]
    exact ⟨h1, by simp [h2]⟩

/-- C5 witness: a bot with no target is retargeted at once, and the concrete
stale-target bot within the interval is left unchanged. -/
theorem c5_witness :
    (1.2 < (2 : ℚ) - c5fresh.last_target_time ∨ c5fresh.target.isNone = true) ∧
    (c5fresh.update_ai c5dead 2 0.5 0 0).last_target_time = 2 ∧
    (¬ (1.2 : ℚ) < 1 - c5bot.last_target_time) ∧ c5bot.target.isNone = false ∧
    c5bot.update_ai c5dead 1 0.5 0 0 = c5bot :=
  ⟨Or.inr rfl,
    ((c5_retarget_interval c5fresh c5dead 2 0.5 0 0).1 (Or.inr rfl)).1,
    by norm_num [c5bot],
    rfl,
    (c5_retarget_interval c5bot c5dead 1 0.5 0 0).2 (by norm_num [c5bot]) rfl⟩

/-- C10: after the update_ai call at the start of Bot.step a target is
always present, so the target-position resolution in step never operates on
an absent target and step always returns a successor state, even on a bots
very first step. -/
theorem c10_step_target_present (bot : Bot) (player : Entity) (now r : ℚ)
    (wx wy j1 j2 : ℝ) :
    ((bot.update_ai player now r wx wy).target).isSome = true ∧
    (bot.step player now r wx wy j1 j2).isSome = true := by
  have h : ((bot.update_ai player now r wx wy).target).isSome = true := by
    unfold Bot.update_ai
    split
    · split <;> rfl
    · rename_i hc
      rw [not_or] at hc
      rcases hc with ⟨-, h2⟩
      cases ht : bot.target with
      | none => exact absurd (by simp [ht]) h2
      | some t => simp [ht]
  refine ⟨h, ?_⟩
  rcases Option.isSome_iff_exists.mp h with ⟨t, ht⟩
  simp only [Bot.step]
  rw [ht]
  rfl

/-- C8 counterexample: with capacity 10, only 2 bots alive and 12 bots ever
spawned, the spawn cap of MAX_BOTS * 2 = 20 is not reached, so a successful
probability draw does spawn a further bot, contrary to the claim that no
further spawns occur. -/
theorem c8_counterexample :
    List.countP (fun b => b.alive) c8bots = 2 ∧
    c8bots.length = 12 ∧
    (0.01 : ℚ) < 0.02 ∧
    spawn_check c8bots 0.01 c8new = c8bots ++ [c8new] ∧
    (spawn_check c8bots 0.01 c8new).length = 13 := by
  have hr : (0.01 : ℚ) < 0.02 := by norm_num
  have hgate : List.countP (fun b => b.alive) c8bots < max 2 (MAX_BOTS / 3) ∧
      c8bots.length < MAX_BOTS * 2 := by
    constructor <;> decide
  have hs : spawn_check c8bots 0.01 c8new = c8bots ++ [c8new] := by
    simp only [spawn_check]
    rw [if_pos hgate, if_pos hr]
  refine ⟨by decide, by decide, hr, hs, ?_⟩
  rw [hs]
  decide

/-- C8 amended: a spawn attempt happens only while the number of living bots
is below max(2, MAX_BOTS // 3) and the total number of bots ever spawned is
below 2 * MAX_BOTS; once the total reaches 2 * MAX_BOTS no further spawn
occurs, but 12 total with 2 alive still allows spawning. -/
theorem c8_spawn_gate (bots : List Entity) (r : ℚ) (nb : Entity) :
    (MAX_BOTS * 2 ≤ bots.length → spawn_check bots r nb = bots) ∧
    (spawn_check bots r nb ≠ bots →
      List.countP (fun b => b.alive) bots < max 2 (MAX_BOTS / 3) ∧
      bots.length < MAX_BOTS * 2 ∧ r < 0.02) ∧
    (List.countP (fun b => b.alive) bots < max 2 (MAX_BOTS / 3) →
      bots.length < MAX_BOTS * 2 → r < 0.02 →
      spawn_check bots r nb = bots ++ [nb]) := by
  refine ⟨?_, ?_, ?_⟩
  · intro h
    simp only [spawn_check]
    split
    · next hcond => exact absurd hcond.2 (not_lt.mpr h)
    · rfl
  · intro hne
    simp only [spawn_check] at hne
    split at hne
    · next hcond =>
      split at hne
      · next hlt => exact ⟨hcond.1, hcond.2, hlt⟩
      · exact absurd rfl hne
    · exact absurd rfl hne
  · intro h1 h2 h3
    simp only [spawn_check]
    rw [if_pos ⟨h1, h2⟩, if_pos h3]

/-- C8 witness: the gate applied to the 12-bot population (a spawn happens)
and to a 20-bot population (the cap blocks the spawn). -/
theorem c8_witness :
    List.countP (fun b => b.alive) c8bots < max 2 (MAX_BOTS / 3) ∧
    c8bots.length < MAX_BOTS * 2 ∧ (0.01 : ℚ) < 0.02 ∧
    spawn_check c8bots 0.01 c8new = c8bots ++ [c8new] ∧
    MAX_BOTS * 2 ≤ (List.replicate 20 c8dead).length ∧
    spawn_check (List.replicate 20 c8dead) 0.01 c8new = List.replicate 20 c8dead :=
  ⟨by decide, by decide, by norm_num,
    (c8_spawn_gate c8bots 0.01 c8new).2.2 (by decide) (by decide) (by norm_num),
    by decide,
    (c8_spawn_gate (List.replicate 20 c8dead) 0.01 c8new).1 (by decide)⟩

/-- C9: at the first scheduled firing after running has become false, the
update_loop callback returns without rendering and without rescheduling, so
the loop stops (the spec instead says it keeps firing and rendering until
the window closes); a later restart sets running back to true but registers
no callback, so no simulation step ever runs again and play does not
resume. -/
theorem c9_loop_halts_after_end :
    (sched_tick c9ended).pending = false ∧
    (sched_tick c9ended).renders = 0 ∧
    (sched_tick c9ended).sims = 0 ∧
    ((sched_tick c9ended).restart).running = true ∧
    (∀ n : ℕ, sched_tick^[n] ((sched_tick c9ended).restart) = (sched_tick c9ended).restart) ∧
    (∀ n : ℕ, (sched_tick^[n] ((sched_tick c9ended).restart)).sims = 0) := by
  have hr : (sched_tick c9ended).restart = ⟨true, false, false, 0, 0⟩ := rfl
  have hfix : ∀ n : ℕ,
      sched_tick^[n] ((sched_tick c9ended).restart) = (sched_tick c9ended).restart := by
    intro n
    induction n with
    | zero => rfl
    | succ n ih =>
      rw [Function.iterate_succ_apply', ih, hr]
      rfl
  exact ⟨rfl, rfl, rfl, rfl, hfix, fun n => by rw [hfix n, hr]⟩

/-- Player.fire succeeds when the player is alive and the cooldown has
elapsed, returning the spawned bullet and recording the fire time. -/
theorem fire_success (p : Player) (now : ℚ) (tx ty : ℝ) (ha : p.alive = true)
    (hcool : FIRE_COOLDOWN ≤ now - p.last_fire) :
    p.fire now tx ty = (some ⟨p.toEntity,
      p.x + (normalize (tx - p.x) (ty - p.y)).1 * ((p.radius + BULLET_RADIUS + 1 : ℚ) : ℝ),
      p.y + (normalize (tx - p.x) (ty - p.y)).2 * ((p.radius + BULLET_RADIUS + 1 : ℚ) : ℝ),
      (normalize (tx - p.x) (ty - p.y)).1 * ((BULLET_SPEED : ℚ) : ℝ),
      (normalize (tx - p.x) (ty - p.y)).2 * ((BULLET_SPEED : ℚ) : ℝ), true⟩,
      { p with last_fire := now }) := by
  have hcf : p.can_fire now = true := decide_eq_true hcool
  simp only [Player.fire]
  rw [if_neg (by rw [not_or, not_not, not_not]; exact ⟨hcf, ha⟩)]

/-- Player.fire is rejected when the guard condition holds. -/
theorem fire_reject (p : Player) (now : ℚ) (tx ty : ℝ)
    (h : ¬ p.can_fire now = true ∨ ¬ p.alive = true) :
    p.fire now tx ty = (none, p) := by
  simp only [Player.fire]
  rw [if_pos h]

/-- C2: a player fire request returns no bullet and leaves the player state
unchanged (in particular the cooldown timestamp) exactly when the player is
dead or less than FIRE_COOLDOWN seconds have elapsed since the last
successful fire; on success the fire time is recorded and the bullet is
spawned at the player position offset along the normalized direction to the
target by radius + BULLET_RADIUS + 1, with velocity that direction times
BULLET_SPEED. -/
theorem c2_fire_spec (p : Player) (now : ℚ) (tx ty : ℝ) :
    ((p.fire now tx ty).1 = none ∧ (p.fire now tx ty).2 = p ↔
      p.alive = false ∨ now - p.last_fire < FIRE_COOLDOWN) ∧
    (p.alive = true → FIRE_COOLDOWN ≤ now - p.last_fire →
      (p.fire now tx ty).2 = { p with last_fire := now } ∧
      (p.fire now tx ty).1 = some ⟨p.toEntity,
        p.x + (normalize (tx - p.x) (ty - p.y)).1 * ((p.radius + BULLET_RADIUS + 1 : ℚ) : ℝ),
        p.y + (normalize (tx - p.x) (ty - p.y)).2 * ((p.radius + BULLET_RADIUS + 1 : ℚ) : ℝ),
        (normalize (tx - p.x) (ty - p.y)).1 * ((BULLET_SPEED : ℚ) : ℝ),
        (normalize (tx - p.x) (ty - p.y)).2 * ((BULLET_SPEED : ℚ) : ℝ), true⟩) := by
  constructor
  · constructor
    · rintro ⟨hnone, -⟩
      by_contra hcon
      push_neg at hcon
      have ha : p.alive = true := by
        rcases Bool.eq_false_or_eq_true p.alive with hb | hb
        · exact hb
        · exact absurd hb hcon.1
      have hc : FIRE_COOLDOWN ≤ now - p.last_fire := hcon.2
      rw [fire_success p now tx ty ha hc] at hnone
      exact Option.noConfusion hnone
    · intro h
      have hrej : p.fire now tx ty = (none, p) := by
        apply fire_reject
        rcases h with ha | hc
        · exact Or.inr (by simp [ha])
        · refine Or.inl ?_
          simp only [Player.can_fire, decide_eq_true_eq]
          exact not_le.mpr hc
      rw [hrej]
      exact ⟨rfl, rfl⟩
  · intro ha hcool
    rw [fire_success p now tx ty ha hcool]
    exact ⟨rfl, rfl⟩

/-- C2 witness: the concrete player fires successfully one second in. -/
theorem c2_witness :
    c2player.alive = true ∧ FIRE_COOLDOWN ≤ (1 : ℚ) - c2player.last_fire ∧
    (c2player.fire 1 200 100).2 = { c2player with last_fire := 1 } ∧
    (c2player.fire 1 200 100).1 ≠ none := by
  have hc : FIRE_COOLDOWN ≤ (1 : ℚ) - c2player.last_fire := by
    norm_num [c2player, FIRE_COOLDOWN]
  refine ⟨rfl, hc, ((c2_fire_spec c2player 1 200 100).2 rfl hc).1, ?_⟩
  intro h
  have h2 := ((c2_fire_spec c2player 1 200 100).2 rfl hc).2
  rw [h] at h2
  exact Option.noConfusion h2

/-- Cast value of WIDTH into the reals. -/
theorem WIDTH_cast : ((WIDTH : ℚ) : ℝ) = 900 := by norm_num [WIDTH]

/-- Cast value of HEIGHT into the reals. -/
theorem HEIGHT_cast : ((HEIGHT : ℚ) : ℝ) = 600 := by norm_num [HEIGHT]

/-- Bullet.update moves x by the x velocity. -/
theorem Bullet.update_x (b : Bullet) : (b.update).x = b.x + b.vx := rfl

/-- Bullet.update moves y by the y velocity. -/
theorem Bullet.update_y (b : Bullet) : (b.update).y = b.y + b.vy := rfl

/-- Bullet.update keeps the x velocity. -/
theorem Bullet.update_vx (b : Bullet) : (b.update).vx = b.vx := rfl

/-- Bullet.update keeps the y velocity. -/
theorem Bullet.update_vy (b : Bullet) : (b.update).vy = b.vy := rfl

/-- Bullet.update keeps the owner. -/
theorem Bullet.update_owner (b : Bullet) : (b.update).owner = b.owner := rfl

/-- Resulting alive flag of Bullet.update. -/
theorem Bullet.update_alive (b : Bullet) : (b.update).alive =
    if b.x + b.vx < -50 ∨ b.x + b.vx > ((WIDTH : ℚ) : ℝ) + 50 ∨
       b.y + b.vy < -50 ∨ b.y + b.vy > ((HEIGHT : ℚ) : ℝ) + 50 then false
    else b.alive := rfl

/-- Trajectory of the C7 scenario bullet: for the first 70 ticks it moves 12
units right per tick and stays alive. -/
theorem c7_traj (k : ℕ) (hk : k ≤ 70) :
    (Bullet.update^[k] c7bullet).x = 100 + 12 * (k : ℝ) ∧
    (Bullet.update^[k] c7bullet).y = 100 ∧
    (Bullet.update^[k] c7bullet).vx = 12 ∧
    (Bullet.update^[k] c7bullet).vy = 0 ∧
    (Bullet.update^[k] c7bullet).alive = true := by
  induction k with
  | zero =>
    refine ⟨?_, rfl, rfl, rfl, rfl⟩
    show c7bullet.x = 100 + 12 * ((0 : ℕ) : ℝ)
    norm_num [c7bullet, c6player]
  | succ k ih =>
    have hk' : k ≤ 70 := Nat.le_of_succ_le hk
    have hk69 : (k : ℝ) ≤ 69 := by exact_mod_cast (by omega : k ≤ 69)
    obtain ⟨hx, hy, hvx, hvy, hal⟩ := ih hk'
    rw [Function.iterate_succ_apply']
    have hcond : ¬ ((Bullet.update^[k] c7bullet).x + (Bullet.update^[k] c7bullet).vx < -50 ∨
        (Bullet.update^[k] c7bullet).x + (Bullet.update^[k] c7bullet).vx > ((WIDTH : ℚ) : ℝ) + 50 ∨
        (Bullet.update^[k] c7bullet).y + (Bullet.update^[k] c7bullet).vy < -50 ∨
        (Bullet.update^[k] c7bullet).y + (Bullet.update^[k] c7bullet).vy > ((HEIGHT : ℚ) : ℝ) + 50) := by
      rw [hx, hy, hvx, hvy, WIDTH_cast, HEIGHT_cast]
      push_neg
      refine ⟨by linarith, by linarith, by norm_num, by norm_num⟩
    refine ⟨?_, ?_, ?_, ?_, ?_⟩
    · rw [Bullet.update_x, hx, hvx]
      push_cast
      ring
    · rw [Bullet.update_y, hy, hvy]
      ring
    · rw [Bullet.update_vx, hvx]
    · rw [Bullet.update_vy, hvy]
    · rw [Bullet.update_alive, if_neg hcond]
      exact hal

/-- C7 counterexample: after 17 ticks (the ceiling of 200 / 12 from the
claim) the bullet is at x = 304, far inside the 900 + 50 bound, and still
alive, contrary to the claim that it is then marked not-alive. -/
theorem c7_counterexample :
    (Bullet.update^[17] c7bullet).alive = true ∧
    (Bullet.update^[17] c7bullet).x = 304 := by
  obtain ⟨hx, -, -, -, hal⟩ := c7_traj 17 (by norm_num)
  refine ⟨hal, ?_⟩
  rw [hx]
  norm_num

/-- C7 amended: the bullet fired at (100, 100) with velocity (12, 0) stays
alive through tick 70 and is marked not-alive at tick 71, the ceiling of
(900 + 50 - 100) / 12, when its x reaches 952 beyond the WIDTH + 50 margin;
in general an update marks a live bullet dead exactly when its new position
leaves the playfield bounds by more than the 50 unit margin on some side. -/
theorem c7_bullet_lifetime :
    (∀ k : ℕ, k ≤ 70 → (Bullet.update^[k] c7bullet).alive = true) ∧
    (Bullet.update^[71] c7bullet).alive = false ∧
    (Bullet.update^[71] c7bullet).x = 952 ∧
    (∀ b : Bullet, b.alive = true →
      ((b.update).alive = false ↔
        (b.x + b.vx < -50 ∨ b.x + b.vx > ((WIDTH : ℚ) : ℝ) + 50 ∨
         b.y + b.vy < -50 ∨ b.y + b.vy > ((HEIGHT : ℚ) : ℝ) + 50))) := by
  obtain ⟨hx, hy, hvx, hvy, hal⟩ := c7_traj 70 le_rfl
  have h71 : Bullet.update^[71] c7bullet = Bullet.update (Bullet.update^[70] c7bullet) :=
    Function.iterate_succ_apply' Bullet.update 70 c7bullet
  refine ⟨fun k hk => (c7_traj k hk).2.2.2.2, ?_, ?_, ?_⟩
  · rw [h71, Bullet.update_alive, if_pos]
    right
    left
    rw [hx, hvx, WIDTH_cast]
    norm_num
  · rw [h71, Bullet.update_x, hx, hvx]
    norm_num
  · intro b hb
    rw [Bullet.update_alive]
    split
    · next h => simp [h]
    · next h => simp [hb, h]

/-- C7 witness: the amended theorem applied at tick 17 and at the concrete
scenario bullet. -/
theorem c7_witness :
    (17 : ℕ) ≤ 70 ∧ (Bullet.update^[17] c7bullet).alive = true ∧
    c7bullet.alive = true ∧
    ((c7bullet.update).alive = false ↔
      (c7bullet.x + c7bullet.vx < -50 ∨
       c7bullet.x + c7bullet.vx > ((WIDTH : ℚ) : ℝ) + 50 ∨
       c7bullet.y + c7bullet.vy < -50 ∨
       c7bullet.y + c7bullet.vy > ((HEIGHT : ℚ) : ℝ) + 50)) :=
  ⟨by norm_num, c7_bullet_lifetime.1 17 (by norm_num), rfl,
    c7_bullet_lifetime.2.2.2 c7bullet rfl⟩

/-- Sufficient squared-distance criterion for the source distance test. -/
theorem distance_le_of_sq_le (x1 y1 x2 y2 r : ℝ) (hr : 0 ≤ r)
    (h : (x1 - x2) ^ 2 + (y1 - y2) ^ 2 ≤ r ^ 2) :
    distance (x1, y1) (x2, y2) ≤ r := by
  unfold distance
  rw [Real.sqrt_le_iff]
  exact ⟨hr, h⟩

/-- Sufficient squared-distance criterion for failing the distance test. -/
theorem distance_not_le_of_sq_gt (x1 y1 x2 y2 r : ℝ) (hr : 0 ≤ r)
    (h : r ^ 2 < (x1 - x2) ^ 2 + (y1 - y2) ^ 2) :
    ¬ distance (x1, y1) (x2, y2) ≤ r := by
  unfold distance
  rw [not_le]
  exact (Real.lt_sqrt hr).mpr h

/-- An entity that fails the hit condition and is not skipped by the scan
must fail the distance test. -/
theorem miss_of_not_cond (bul : Bullet) (x : Entity) (hx : ¬ bot_hit_cond bul x)
    (h1 : ¬ (x.alive = false ∨ bul.owner.eid = x.eid)) :
    ¬ distance (bul.x, bul.y) (x.x, x.y) ≤ ((BULLET_RADIUS + x.radius : ℚ) : ℝ) := by
  intro hd
  rw [not_or] at h1
  apply hx
  refine ⟨?_, h1.2, hd⟩
  rcases Bool.eq_false_or_eq_true x.alive with hb | hb
  · exact hb
  · exact absurd hb h1.1

/-- When no bot in the list satisfies the hit condition the scan leaves the
list and the bullet alive flag unchanged. -/
theorem scan_bots_no_hit (bul : Bullet) (bots : List Entity)
    (h : ∀ b ∈ bots, ¬ bot_hit_cond bul b) :
    scan_bots bul bots = (bots, bul.alive) := by
  induction bots with
  | nil => rfl
  | cons bot rest ih =>
    have hbot := h bot (by simp)
    have hrest := ih (fun b hb => h b (by simp [hb]))
    simp only [scan_bots]
    by_cases h1 : bot.alive = false ∨ bul.owner.eid = bot.eid
    · rw [if_pos h1, hrest]
    · rw [if_neg h1, if_neg (miss_of_not_cond bul bot hbot h1), hrest]

/-- The scan hits exactly the first bot in iteration order satisfying the
hit condition: that bot takes 22 damage, every other bot (also later ones in
range) is untouched, and the bullet dies. -/
theorem scan_bots_first_hit (bul : Bullet) (l1 l2 : List Entity) (bot : Entity)
    (h1 : ∀ b ∈ l1, ¬ bot_hit_cond bul b) (hb : bot_hit_cond bul bot) :
    scan_bots bul (l1 ++ bot :: l2) = (l1 ++ bot.hit 22 :: l2, false) := by
  induction l1 with
  | nil =>
    obtain ⟨hal, hne, hd⟩ := hb
    simp only [List.nil_append, scan_bots]
    rw [if_neg (by rw [not_or]; exact ⟨by simp [hal], hne⟩), if_pos hd]
  | cons x l1 ih =>
    have hx := h1 x (by simp)
    have hrest := ih (fun b hb2 => h1 b (by simp [hb2]))
    simp only [List.cons_append, scan_bots, List.append_eq]
    by_cases hc1 : x.alive = false ∨ bul.owner.eid = x.eid
    · rw [if_pos hc1, hrest]
    · rw [if_neg hc1, if_neg (miss_of_not_cond bul x hx hc1), hrest]

/-- C6: per live projectile in a tick, when the projectile was not fired by
the player, the player is alive and the projectile is within owner radius +
player radius + BULLET_RADIUS of the player, the player takes exactly 18
damage, the projectile dies and no bot checks run; otherwise the first live
non-owner bot in iteration order within BULLET_RADIUS + bot radius takes
exactly 22 damage and kills the projectile, with every other bot untouched
(at most one bot hit even when several are in range); with no match nothing
changes. -/
theorem c6_collision (player : Entity) (bots l1 l2 : List Entity) (bot : Entity)
    (bul : Bullet) :
    (player_hit_cond player bul →
      resolve_bullet player bots bul = (player.hit 18, bots, { bul with alive := false }) ∧
      (player.hit 18).hp = player.hp - 18) ∧
    (¬ player_hit_cond player bul → bots = l1 ++ bot :: l2 →
      (∀ b ∈ l1, ¬ bot_hit_cond bul b) → bot_hit_cond bul bot →
      resolve_bullet player bots bul =
        (player, l1 ++ bot.hit 22 :: l2, { bul with alive := false }) ∧
      (bot.hit 22).hp = bot.hp - 22) ∧
    (¬ player_hit_cond player bul → (∀ b ∈ bots, ¬ bot_hit_cond bul b) →
      resolve_bullet player bots bul = (player, bots, bul)) := by
  refine ⟨?_, ?_, ?_⟩
  · intro h
    refine ⟨?_, rfl⟩
    simp only [resolve_bullet]
    rw [if_pos h]
  · intro hnp hsplit hl1 hbot
    subst hsplit
    refine ⟨?_, rfl⟩
    simp only [resolve_bullet]
    rw [if_neg hnp, scan_bots_first_hit bul l1 l2 bot hl1 hbot]
  · intro hnp hall
    simp only [resolve_bullet]
    rw [if_neg hnp, scan_bots_no_hit bul bots hall]

/-- C6 witness: a bot bullet 5 units from the player hits it, and a player
bullet scanning the concrete bot list skips the dead bot, misses the far
bot, hits the first in-range bot and leaves the later in-range bot
untouched. -/
theorem c6_witness :
    player_hit_cond c6player c6bulA ∧
    resolve_bullet c6player c6bots c6bulA =
      (c6player.hit 18, c6bots, { c6bulA with alive := false }) ∧
    ¬ player_hit_cond c6player c6bulB ∧
    bot_hit_cond c6bulB c6hitbot ∧
    resolve_bullet c6player c6bots c6bulB =
      (c6player, [c6deadbot, c6farbot] ++ c6hitbot.hit 22 :: [c6latebot],
        { c6bulB with alive := false }) := by
  have hA : player_hit_cond c6player c6bulA := by
    refine ⟨by decide, rfl, ?_⟩
    have hsum : ((c6bulA.owner.radius + c6player.radius + BULLET_RADIUS : ℚ) : ℝ) = 23 := by
      norm_num [c6bulA, c6owner, c6player, BULLET_RADIUS]
    rw [hsum]
    show distance (5, 0) (0, 0) ≤ (23 : ℝ)
    exact distance_le_of_sq_le 5 0 0 0 23 (by norm_num) (by norm_num)
  have hnpB : ¬ player_hit_cond c6player c6bulB := fun h => h.1 rfl
  have hl1 : ∀ b ∈ [c6deadbot, c6farbot], ¬ bot_hit_cond c6bulB b := by
    intro b hb
    simp only [List.mem_cons, List.not_mem_nil, or_false] at hb
    rcases hb with rfl | rfl
    · intro h
      exact absurd h.1 (by decide)
    · intro h
      have h13 : ((BULLET_RADIUS + c6farbot.radius : ℚ) : ℝ) = 13 := by
        norm_num [BULLET_RADIUS, c6farbot]
      have hd : distance (5, 0) (500, 0) ≤ (13 : ℝ) := by
        have := h.2.2
        rw [h13] at this
        exact this
      exact distance_not_le_of_sq_gt 5 0 500 0 13 (by norm_num) (by norm_num) hd
  have hbot : bot_hit_cond c6bulB c6hitbot := by
    refine ⟨rfl, by decide, ?_⟩
    have h13 : ((BULLET_RADIUS + c6hitbot.radius : ℚ) : ℝ) = 13 := by
      norm_num [BULLET_RADIUS, c6hitbot]
    rw [h13]
    show distance (5, 0) (10, 0) ≤ (13 : ℝ)
    exact distance_le_of_sq_le 5 0 10 0 13 (by norm_num) (by norm_num)
  exact ⟨hA, ((c6_collision c6player c6bots [] [] c6player c6bulA).1 hA).1, hnpB, hbot,
    ((c6_collision c6player c6bots [c6deadbot, c6farbot] [c6latebot] c6hitbot c6bulB).2.1
      hnpB rfl hl1 hbot).1⟩

end FF

